import Mathlib

/-!
Verification of the LocalAI conversational agent orchestration engine
(backend/main.py) against its natural-language specification.

The Python source is shallowly embedded: the polymorphic dict-or-object
message representation is collapsed to a single structure `Msg` whose
`mtype` field plays the role of both the LangChain message class tag and
the dict `type` key; external capabilities (model streaming, Arcade tool
manager, langgraph engine) are passed in as explicit oracle parameters so
that the control flow written in the repository is the only thing being
verified.
-/

namespace LocalAI

/-- A tool-call request as emitted by the model: `id`, tool `name` and an
argument map (embedded as an association list). Mirrors the dicts stored
in `AIMessage.tool_calls` in backend/main.py. -/
structure ToolCall where
  id : String
  name : String
  args : List (String × String)
deriving DecidableEq, Repr

/-- Canonical message representation: both LangChain message objects and
the serialized dicts produced by `serialize_message` collapse to this one
record. `mtype` is the role tag ("system", "human", "ai", "tool"). -/
structure Msg where
  mtype : String
  content : String
  tool_calls : List ToolCall
  tool_call_id : Option String
  name : Option String
deriving DecidableEq, Repr

/-- One streamed chunk of model output (`model.astream` element): a text
fragment and a possibly-empty list of tool-call fragments. -/
structure Chunk where
  content : String
  tool_calls : List ToolCall
deriving DecidableEq, Repr

/-- Embedding of `serialize_message` (backend/main.py lines 367-381): the
serialized dict carries the same type, content, tool_calls, tool_call_id
and name fields as the message object. -/
def serialize_message (m : Msg) : Msg :=
  ⟨m.mtype, m.content, m.tool_calls, m.tool_call_id, m.name⟩

/-- The system-message dict `{"type": "system", "content": system_content}`
built by `WorkflowBuilder._ensure_system_message`. -/
def systemDict (system_content : String) : Msg :=
  ⟨"system", system_content, [], none, none⟩

/-- The Python head test of `_ensure_system_message`:
`messages and (isinstance(messages[0], SystemMessage) or messages[0].get('type') == 'system')`. -/
def beginsWithSystem : List Msg → Bool
  | [] => false
  | m :: _ => m.mtype == "system"

/-- Embedding of `WorkflowBuilder._ensure_system_message`
(backend/main.py lines 476-488), as a pure value-level function: if the
history is empty or does not begin with a system message, the system dict
is prepended; otherwise the history is returned unchanged (the Python
copy is value-equal to its source). -/
def ensure_system_message (messages : List Msg) (system_content : String) : List Msg :=
  if beginsWithSystem messages then messages
  else systemDict system_content :: messages

/-- Heap-level embedding of `_ensure_system_message`, keeping Python's
object identity explicit: the heap is a list of list-objects addressed by
index, `messages[:]` allocates a copy, and `[system_dict] + messages_copy`
allocates a fresh list. Returns the new heap and the address of the
returned list. -/
def ensure_system_message_heap (heap : List (List Msg)) (a : Nat) (system_content : String) :
    List (List Msg) × Nat :=
  let messages := heap.getD a []
  let heap1 := heap ++ [messages]
  let copyAddr := heap.length
  if beginsWithSystem messages then (heap1, copyAddr)
  else (heap1 ++ [systemDict system_content :: messages], heap1.length)

/-- Python `str.strip()`: drop whitespace from both ends (embedded over
the character list so it is kernel-computable). -/
def pyStrip (s : String) : String :=
  String.mk (((s.data.dropWhile Char.isWhitespace).reverse.dropWhile Char.isWhitespace).reverse)

/-- The streaming accumulation loop of `call_agent`
(backend/main.py lines 437-452): text fragments are concatenated, and each
chunk's tool-call fragments are filtered to those whose name is non-empty
after stripping, then appended. -/
def agentAccum (chunks : List Chunk) : String × List ToolCall :=
  chunks.foldl
    (fun acc ch =>
      let full_content := if ch.content != "" then acc.1 ++ ch.content else acc.1
      let tool_calls :=
        if ch.tool_calls.isEmpty then acc.2
        else acc.2 ++ ch.tool_calls.filter (fun tc => pyStrip tc.name != "")
      (full_content, tool_calls))
    ("", [])

/-- The success path of `call_agent` (backend/main.py lines 453-454): one
serialized ai-role message carrying the accumulated content and tool-call
list, returned as the node's sole message delta. -/
def call_agent_response (chunks : List Chunk) : List Msg :=
  [serialize_message ⟨"ai", (agentAccum chunks).1, (agentAccum chunks).2, none, none⟩]

/-- The failure path of `call_agent` (backend/main.py lines 456-459): one
serialized ai-role message whose content reports the error; `AIMessage`
constructed without `tool_calls` has an empty tool-call list. -/
def agent_error_response (e : String) : List Msg :=
  [serialize_message ⟨"ai", "I encountered an error: " ++ e, [], none, none⟩]

/-- Routing outcomes of `should_continue`: the strings "authorization" and
"tools", and langgraph's END sentinel. -/
inductive Route where
  | authorization
  | tools
  | endTurn
deriving DecidableEq, Repr

/-- Total tool-call count of a message list (the loop body
`recent_tool_calls += len(msg.tool_calls or [])`). -/
def tcCount (l : List Msg) : Nat :=
  (l.map (fun m => m.tool_calls.length)).sum

/-- Python slice `state["messages"][-10:]`: the last ten messages (or the
whole list when shorter). -/
def lastWindow (l : List Msg) : List Msg :=
  l.drop (l.length - 10)

/-- Embedding of `create_routing_function(...).should_continue`
(backend/main.py lines 569-606). `requiresAuth` is the external
`tool_manager.requires_auth` capability, present iff a tool manager is
configured. Returns `none` when the message list is empty (Python would
raise IndexError on `messages[-1]`), which cannot happen in the graph. -/
def should_continue (requiresAuth : Option (String → Bool)) (max_tool_calls : Nat)
    (messages : List Msg) : Option Route :=
  match messages.getLast? with
  | none => none
  | some last_message =>
    let tool_calls := last_message.tool_calls
    let recent_tool_calls := tcCount (lastWindow messages)
    if recent_tool_calls > max_tool_calls then some Route.endTurn
    else if tool_calls.isEmpty then some Route.endTurn
    else
      match requiresAuth with
      | some ra =>
        if tool_calls.any (fun tc => ra tc.name) then some Route.authorization
        else some Route.tools
      | none => some Route.tools

/-- langgraph's START sentinel. -/
def STARTV : String := "__start__"

/-- langgraph's END sentinel. -/
def ENDV : String := "__end__"

/-- The state-machine graph as wired by `chat` (backend/main.py lines
700-727) and identically by `reconfigure_workflow_tools` (lines 195-222):
node names, unconditional edges, and the conditional edge map from the
agent node. -/
structure Graph where
  nodes : List String
  edges : List (String × String)
  conditional : List (String × List String)
deriving DecidableEq, Repr

/-- Embedding of the workflow construction: `hasTools` is the Python
truthiness of `tools`, `hasToolManager` of `tool_manager`. -/
def buildWorkflowGraph (hasTools : Bool) (hasToolManager : Bool) : Graph :=
  let nodes := ["agent"] ++
    (if hasTools then ["tools"] ++ (if hasToolManager then ["authorization"] else []) else [])
  let conditional :=
    if hasTools then [("agent", ["authorization", "tools", ENDV])] else []
  let edges :=
    (if hasTools then [("authorization", "tools"), ("tools", "agent")]
     else [("agent", ENDV)]) ++ [(STARTV, "agent")]
  ⟨nodes, edges, conditional⟩

/-- Modelled from the spec: langgraph's prebuilt `ToolNode` (an external
capability, not under src/) executes each pending tool call by name and
argument map and, with its default error handling, converts a per-call
failure into a tool-role message for that call without aborting the
batch. `execTool` is the per-call external executor. -/
def runOne (execTool : ToolCall → Except String String) (tc : ToolCall) : Msg :=
  match execTool tc with
  | Except.ok out => ⟨"tool", out, [], some tc.id, some tc.name⟩
  | Except.error e =>
      ⟨"tool", "Error: " ++ e ++ " Please fix your mistakes.", [], some tc.id, some tc.name⟩

/-- Modelled from the spec: the external `ToolNode` maps `runOne` over the
pending tool calls of the last message, in request order. -/
def toolNodeRun (execTool : ToolCall → Except String String) (tcs : List ToolCall) : List Msg :=
  tcs.map (runOne execTool)

/-- Embedding of `WorkflowBuilder.create_tool_node.wrapped_tool_node`
(backend/main.py lines 495-505), success path: the inner `ToolNode` result
is serialized message-by-message and returned. -/
def wrapped_tool_node (execTool : ToolCall → Except String String)
    (messages : List Msg) : List Msg :=
  match messages.getLast? with
  | none => []
  | some last => (toolNodeRun execTool last.tool_calls).map serialize_message

/-- Embedding of the batch-level exception handler of `wrapped_tool_node`
(backend/main.py lines 507-527): when the inner `ToolNode.ainvoke` itself
raises `e`, one tool-role error dict is synthesized per pending tool call,
carrying that call's id and name. -/
def wrapped_tool_node_catch (e : String) (messages : List Msg) : List Msg :=
  match messages.getLast? with
  | none => []
  | some last =>
      last.tool_calls.map (fun tc =>
        ⟨"tool", "Error executing tool: " ++ e, [], some tc.id, some tc.name⟩)

/-- The `(status, url, id)` record returned by the external
`tool_manager.authorize`. -/
structure AuthResponse where
  status : String
  url : String
  id : String
deriving DecidableEq, Repr

/-- External Arcade tool-manager capabilities used by the authorization
node. `authorize` and `wait_for_auth` may raise (modelled as `Except`). -/
structure AuthExt where
  requires_auth : String → Bool
  authorize : String → Option String → Except String AuthResponse
  wait_for_auth : String → Except String Unit
  is_authorized : String → Bool

/-- One iteration of the authorization loop of
`WorkflowBuilder.create_authorization_node.authorize` (backend/main.py
lines 545-562): skip calls that need no auth; otherwise run the handshake,
wait when not yet completed, and raise when the wait ends unauthorized;
every exception is re-raised. -/
def authorizeOne (ext : AuthExt) (user_id : Option String) (tc : ToolCall) :
    Except String Unit :=
  if ext.requires_auth tc.name then
    match ext.authorize tc.name user_id with
    | Except.error e => Except.error e
    | Except.ok r =>
      if r.status != "completed" then
        match ext.wait_for_auth r.id with
        | Except.error e => Except.error e
        | Except.ok _ =>
          if ext.is_authorized r.id then Except.ok ()
          else Except.error ("Authorization failed for " ++ tc.name)
      else Except.ok ()
  else Except.ok ()

/-- The sequential `for tool_call in tool_calls` loop of the authorization
node: the first failure aborts with that error. -/
def authLoop (ext : AuthExt) (user_id : Option String) : List ToolCall → Except String Unit
  | [] => Except.ok ()
  | tc :: rest =>
    match authorizeOne ext user_id tc with
    | Except.error e => Except.error e
    | Except.ok _ => authLoop ext user_id rest

/-- Embedding of the whole authorization node (backend/main.py lines
535-564): reads the last message's tool calls, runs the handshake loop,
and on success returns the empty message delta `{"messages": []}`.
`none` corresponds to Python's IndexError on an empty history. -/
def authorize_node (ext : AuthExt) (user_id : Option String) (messages : List Msg) :
    Option (Except String (List Msg)) :=
  match messages.getLast? with
  | none => none
  | some last =>
    some (match authLoop ext user_id last.tool_calls with
          | Except.error e => Except.error e
          | Except.ok _ => Except.ok ([] : List Msg))

/-- Whether a single flagged call's handshake ends granted: either the
initial response is already "completed", or the wait succeeds and
`is_authorized` reports true. -/
def handshakeGrants (ext : AuthExt) (user_id : Option String) (tc : ToolCall) : Bool :=
  match ext.authorize tc.name user_id with
  | Except.error _ => false
  | Except.ok r =>
    r.status == "completed" ||
      (match ext.wait_for_auth r.id with
       | Except.error _ => false
       | Except.ok _ => ext.is_authorized r.id)

/-- The Arcade tool-manager handle stored per thread; the embedding keeps
the toolkit list it was initialized with. -/
structure ToolMgr where
  toolkits : List String
deriving DecidableEq, Repr

/-- The per-thread configuration dict stored by `WorkflowManager`
(provider, model, toolkits, enable_memory). -/
structure ConfigDict where
  provider : String
  model : String
  toolkits : List String
  enable_memory : Bool
deriving DecidableEq, Repr

/-- The three dicts held by `WorkflowManager` (backend/main.py lines
112-118), embedded as association lists keyed by thread id. -/
structure WMState where
  workflows : List (String × Graph)
  configurations : List (String × ConfigDict)
  tool_managers : List (String × ToolMgr)
deriving DecidableEq, Repr

/-- Dict read `d.get(k)`. -/
def lookupA {α : Type} (l : List (String × α)) (k : String) : Option α :=
  (l.find? (fun p => p.1 == k)).map Prod.snd

/-- Dict write `d[k] = v`. -/
def insertA {α : Type} (l : List (String × α)) (k : String) (v : α) : List (String × α) :=
  if (l.find? (fun p => p.1 == k)).isSome then
    l.map (fun p => if p.1 == k then (k, v) else p)
  else l ++ [(k, v)]

/-- Dict removal `d.pop(k, None)`. -/
def eraseA {α : Type} (l : List (String × α)) (k : String) : List (String × α) :=
  l.filter (fun p => !(p.1 == k))

/-- Control flow of `ModelFactory.create_model` (backend/main.py lines
251-305): ollama needs no key; the other three providers raise when no
api key is supplied; anything else is unsupported. The constructed model
handle itself is external and carries no checkable state. Python's
falsy check `if not api_key` is embedded as `none`, i.e. an absent or
empty credential. -/
def create_model (provider : String) (api_key : Option String) : Except String Unit :=
  if provider == "ollama" then Except.ok ()
  else if provider == "openai" || provider == "anthropic" || provider == "google" then
    match api_key with
    | none => Except.error ("API key required for " ++ provider)
    | some _ => Except.ok ()
  else Except.error ("Unsupported provider: " ++ provider)

/-- External effects used by reconfiguration: whether
`ToolManager(...).init_tools` succeeds for a toolkit set, the tool list
`to_langchain` yields, and whether `model.bind_tools` succeeds on it. -/
structure ToolExt where
  init_tools_ok : List String → Bool
  to_langchain : List String → List String
  bind_tools_ok : List String → Bool

/-- Embedding of `WorkflowManager.reconfigure_workflow_tools`
(backend/main.py lines 149-237). Returns the manager state as left at the
point of return or raise, together with the changes record or the raised
error. The source order is kept: existence check, config read, model
creation, then for a non-empty toolkit set tool-manager initialization,
`set_tool_manager`, `bind_tools`; the workflow and configuration dicts are
only written at the very end. Python's set differences iterate in
unspecified order; they are embedded as order-preserving deduplicating
filters, which carry the same elements. -/
def reconfigure_workflow_tools (ext : ToolExt) (s : WMState) (thread_id : String)
    (new_toolkits : List String) (api_key : Option String) :
    WMState × Except String (List String × List String) :=
  if (lookupA s.workflows thread_id).isNone then
    (s, Except.error ("Thread " ++ thread_id ++ " does not exist"))
  else
    match lookupA s.configurations thread_id with
    | none => (s, Except.error "KeyError: configurations")
    | some current_config =>
      let old_toolkits := current_config.toolkits
      let added_tools := (new_toolkits.filter (fun t => !(old_toolkits.contains t))).dedup
      let removed_tools := (old_toolkits.filter (fun t => !(new_toolkits.contains t))).dedup
      let cfg2 : ConfigDict :=
        ⟨current_config.provider, current_config.model, new_toolkits, current_config.enable_memory⟩
      match create_model current_config.provider api_key with
      | Except.error e => (s, Except.error e)
      | Except.ok _ =>
        if new_toolkits.isEmpty then
          let s1 : WMState := ⟨s.workflows, s.configurations, eraseA s.tool_managers thread_id⟩
          let g := buildWorkflowGraph false false
          let s2 : WMState :=
            ⟨insertA s1.workflows thread_id g, insertA s1.configurations thread_id cfg2,
              s1.tool_managers⟩
          (s2, Except.ok (added_tools, removed_tools))
        else
          if ext.init_tools_ok new_toolkits then
            let tools := ext.to_langchain new_toolkits
            let s1 : WMState :=
              ⟨s.workflows, s.configurations, insertA s.tool_managers thread_id ⟨new_toolkits⟩⟩
            if ext.bind_tools_ok tools then
              let g := buildWorkflowGraph (!tools.isEmpty) true
              let s2 : WMState :=
                ⟨insertA s1.workflows thread_id g, insertA s1.configurations thread_id cfg2,
                  s1.tool_managers⟩
              (s2, Except.ok (added_tools, removed_tools))
            else (s1, Except.error "bind_tools failed")
          else (s, Except.error "init_tools failed")

/-- The credential guard and reconfiguration call of the `chat` endpoint
(backend/main.py lines 752-765): when tools are requested and no Arcade
api key is configured (Python falsy, embedded as `none`), the request is
rejected before `reconfigure_workflow_tools` runs. -/
def chat_reconfigure (arcade_api_key : Option String) (ext : ToolExt) (s : WMState)
    (thread_id : String) (requested_toolkits : List String) (api_key : Option String) :
    WMState × Except String (List String × List String) :=
  if !requested_toolkits.isEmpty && arcade_api_key.isNone then
    (s, Except.error "Arcade API key required for tool operations")
  else reconfigure_workflow_tools ext s thread_id requested_toolkits api_key

/-- Whether a result is a success. -/
def exOk {α : Type} : Except String α → Bool
  | Except.ok _ => true
  | Except.error _ => false

/-- The character class `[a-zA-Z0-9_-]` of `validate_thread_id`. -/
def isThreadIdChar (c : Char) : Bool :=
  c.isAlphanum || c == '_' || c == '-'

/-- Semantics of the source line
`re.match(r'^[a-zA-Z0-9_-]+$', thread_id)` under Python's `re` rules:
`$` matches at the end of the string or just before one newline at the
end of the string, so the pattern accepts one or more class characters
optionally followed by a single trailing newline. -/
def pyThreadIdMatch (s : String) : Bool :=
  let cs := s.data
  (!cs.isEmpty && cs.all isThreadIdChar) ||
    (match cs.getLast? with
     | some c =>
         c == '\n' && !cs.dropLast.isEmpty && cs.dropLast.all isThreadIdChar
     | none => false)

/-- Embedding of `validate_thread_id` (backend/main.py lines 320-328):
pattern check, then length ceiling (`MAX_THREAD_ID_LENGTH`, default 100),
returning the id unchanged on success. -/
def validate_thread_id (max_len : Nat) (thread_id : String) : Except String String :=
  if !pyThreadIdMatch thread_id then
    Except.error "Thread ID can only contain alphanumeric characters, underscores, and hyphens"
  else if thread_id.length > max_len then
    Except.error "Thread ID too long"
  else Except.ok thread_id

/-- A synthetic no-op tool call with generator-assigned id `i`. -/
def noopCall (i : Nat) : ToolCall := ⟨toString i, "noop", []⟩

/-- The ai-role message produced by a synthetic model that always emits
exactly one tool call. -/
def aiTC (i : Nat) : Msg := ⟨"ai", "", [noopCall i], none, none⟩

/-- The tool-role result message answering `noopCall i`. -/
def toolRes (i : Nat) : Msg := ⟨"tool", "ok", [], some (toString i), some "noop"⟩

/-- `k` completed agent/tool rounds of the synthetic always-tool-calling
model: ai message with one tool call, then its tool result, repeated. -/
def pairsList : Nat → List Msg
  | 0 => []
  | k + 1 => pairsList k ++ [aiTC k, toolRes k]

/-- The conversation state seen by the routing function right after the
`k`-th agent invocation of the synthetic run: the initial human message,
`k` completed rounds, and the fresh ai message carrying one tool call. -/
def histAfterAgent (k : Nat) : List Msg :=
  ⟨"human", "go", [], none, none⟩ :: (pairsList k ++ [aiTC k])

/-! ## Helper lemmas -/

theorem tcCount_append (l1 l2 : List Msg) : tcCount (l1 ++ l2) = tcCount l1 + tcCount l2 := by
  simp [tcCount]

theorem tcCount_cons (m : Msg) (l : List Msg) :
    tcCount (m :: l) = m.tool_calls.length + tcCount l := by
  simp [tcCount]

theorem beginsWithSystem_systemDict (c : String) (l : List Msg) :
    beginsWithSystem (systemDict c :: l) = true := by
  simp [beginsWithSystem, systemDict]

theorem ensure_heap_eq_true {heap : List (List Msg)} {a : Nat} {c : String}
    (hb : beginsWithSystem (heap.getD a []) = true) :
    ensure_system_message_heap heap a c = (heap ++ [heap.getD a []], heap.length) := by
  simp only [ensure_system_message_heap]
  rw [if_pos hb]

theorem ensure_heap_eq_false {heap : List (List Msg)} {a : Nat} {c : String}
    (hb : beginsWithSystem (heap.getD a []) = false) :
    ensure_system_message_heap heap a c =
      ((heap ++ [heap.getD a []]) ++ [systemDict c :: heap.getD a []],
        (heap ++ [heap.getD a []]).length) := by
  simp only [ensure_system_message_heap]
  rw [if_neg (by rw [hb]; simp)]

/-! ## Claim theorems -/

/-- C6: `_ensure_system_message` inserts the composed system message at the
head only when the history does not already begin with a system message,
the result always begins with a (single, index-0) system message, and the
operation is idempotent: re-running it on a history already starting with
a system message inserts nothing. -/
theorem c6_system_message_insertion_idempotent (ms : List Msg) (c c2 : String) :
    (beginsWithSystem ms = true → ensure_system_message ms c = ms) ∧
    (beginsWithSystem ms = false → ensure_system_message ms c = systemDict c :: ms) ∧
    beginsWithSystem (ensure_system_message ms c) = true ∧
    ensure_system_message (ensure_system_message ms c) c2 = ensure_system_message ms c := by
  refine ⟨fun h => ?_, fun h => ?_, ?_, ?_⟩
  · simp [ensure_system_message, h]
  · simp [ensure_system_message, h]
  · cases hb : beginsWithSystem ms <;>
      simp [ensure_system_message, hb, beginsWithSystem_systemDict]
  · cases hb : beginsWithSystem ms <;>
      simp [ensure_system_message, hb, beginsWithSystem_systemDict]

/-- C6 witness: concrete run on a one-message human history. -/
theorem c6_system_message_insertion_idempotent_witness :
    ensure_system_message [Msg.mk "human" "hi" [] none none] "s" =
      systemDict "s" :: [Msg.mk "human" "hi" [] none none] ∧
    ensure_system_message (ensure_system_message [Msg.mk "human" "hi" [] none none] "s") "s2" =
      ensure_system_message [Msg.mk "human" "hi" [] none none] "s" :=
  ⟨(c6_system_message_insertion_idempotent [Msg.mk "human" "hi" [] none none] "s" "s2").2.1
      (by decide),
   (c6_system_message_insertion_idempotent [Msg.mk "human" "hi" [] none none] "s" "s2").2.2.2⟩

/-- C9: at the heap level, `_ensure_system_message` never mutates the
caller's list: the object at the input address is unchanged after the
call, the returned address is a fresh one (distinct from the input), and
the returned object holds exactly the value-level result. -/
theorem c9_ensure_system_message_no_mutation (heap : List (List Msg)) (a : Nat) (c : String)
    (h : a < heap.length) :
    (ensure_system_message_heap heap a c).1.getD a [] = heap.getD a [] ∧
    a ≠ (ensure_system_message_heap heap a c).2 ∧
    (ensure_system_message_heap heap a c).1.getD (ensure_system_message_heap heap a c).2 [] =
      ensure_system_message (heap.getD a []) c := by
  cases hb : beginsWithSystem (heap.getD a []) with
  | true =>
    rw [ensure_heap_eq_true hb]
    refine ⟨List.getD_append heap [heap.getD a []] [] a h, by omega, ?_⟩
    rw [List.getD_append_right heap [heap.getD a []] [] heap.length (le_refl _)]
    unfold ensure_system_message
    rw [if_pos hb, Nat.sub_self]
    simp
  | false =>
    rw [ensure_heap_eq_false hb]
    have h1 : a < (heap ++ [heap.getD a []]).length := by
      simp only [List.length_append, List.length_singleton]; omega
    refine ⟨?_, ?_, ?_⟩
    · rw [List.getD_append _ _ [] a h1, List.getD_append _ _ [] a h]
    · simp only [List.length_append, List.length_singleton]; omega
    · rw [List.getD_append_right _ _ [] _ (le_refl _)]
      unfold ensure_system_message
      rw [if_neg (by rw [hb]; simp), Nat.sub_self]
      simp

/-- C9 witness: concrete heap with one human-message list at address 0. -/
theorem c9_ensure_system_message_no_mutation_witness :
    (ensure_system_message_heap [[Msg.mk "human" "hi" [] none none]] 0 "s").1.getD 0 [] =
      [Msg.mk "human" "hi" [] none none] ∧
    0 ≠ (ensure_system_message_heap [[Msg.mk "human" "hi" [] none none]] 0 "s").2 :=
  ⟨(c9_ensure_system_message_no_mutation [[Msg.mk "human" "hi" [] none none]] 0 "s"
      (by decide)).1,
   (c9_ensure_system_message_no_mutation [[Msg.mk "human" "hi" [] none none]] 0 "s"
      (by decide)).2.1⟩

/-- C7: on a model-call failure the agent node yields exactly one ai-role
message whose content reports the error and whose tool-call list is
empty, and the routing function maps any history ending in that message
to the END sentinel (the turn terminates). -/
theorem c7_model_failure_terminates (e : String) (pre : List Msg)
    (ra : Option (String → Bool)) (maxTc : Nat) :
    agent_error_response e = [Msg.mk "ai" ("I encountered an error: " ++ e) [] none none] ∧
    should_continue ra maxTc (pre ++ agent_error_response e) = some Route.endTurn := by
  constructor
  · rfl
  · unfold agent_error_response serialize_message
    simp only [should_continue, List.getLast?_concat]
    split <;> simp

/-- C10: the thread-id validator accepts `"abc\n"` — Python's `re.match`
with a `$` anchor matches just before one trailing newline — even though
a newline is outside the `[a-zA-Z0-9_-]` class the validator's own error
message promises to enforce. -/
theorem c10_thread_id_trailing_newline_accepted :
    validate_thread_id 100 "abc\n" = Except.ok "abc\n" ∧
    "abc\n".data.all isThreadIdChar = false ∧
    isThreadIdChar '\n' = false := by
  refine ⟨rfl, by decide, by decide⟩

theorem agentAccum_go (chunks : List Chunk) (a : String) (b : List ToolCall) :
    chunks.foldl
      (fun acc ch =>
        let full_content := if ch.content != "" then acc.1 ++ ch.content else acc.1
        let tool_calls :=
          if ch.tool_calls.isEmpty then acc.2
          else acc.2 ++ ch.tool_calls.filter (fun tc => pyStrip tc.name != "")
        (full_content, tool_calls))
      (a, b) =
    (a ++ (chunks.map Chunk.content).foldr (fun x y => x ++ y) "",
      b ++ ((chunks.map Chunk.tool_calls).flatten.filter (fun tc => pyStrip tc.name != ""))) := by
  induction chunks generalizing a b with
  | nil => simp
  | cons ch rest ih =>
    simp only [List.foldl_cons, List.map_cons, List.foldr_cons, List.flatten_cons,
      List.filter_append]
    rw [ih]
    rw [Prod.mk.injEq]
    constructor
    · cases hc : ch.content == "" with
      | true =>
        have : ch.content = "" := by simpa using hc
        simp [bne, hc, this, String.append_assoc]
      | false => simp [bne, hc, String.append_assoc]
    · cases he : ch.tool_calls.isEmpty with
      | true =>
        have : ch.tool_calls = [] := by simpa [List.isEmpty_iff] using he
        simp [he, this]
      | false => simp [he, List.append_assoc]

theorem agentAccum_eq (chunks : List Chunk) :
    agentAccum chunks =
      ((chunks.map Chunk.content).foldr (fun x y => x ++ y) "",
        (chunks.map Chunk.tool_calls).flatten.filter (fun tc => pyStrip tc.name != "")) := by
  have h := agentAccum_go chunks "" []
  simpa [agentAccum] using h

/-- C1 (amended): on stream completion the agent node synthesizes exactly
one ai-role message; its content is the concatenation of all text
fragments and its tool-call list is the order- and multiplicity-
preserving filter of all accumulated fragments keeping exactly those
whose name is non-empty after trimming — so no surviving request has an
empty trimmed name, but no de-duplication is performed. -/
theorem c1_stream_completion_filters_empty_names (chunks : List Chunk) :
    call_agent_response chunks =
      [Msg.mk "ai" ((chunks.map Chunk.content).foldr (fun x y => x ++ y) "")
        ((chunks.map Chunk.tool_calls).flatten.filter (fun tc => pyStrip tc.name != ""))
        none none] ∧
    ∀ tc ∈ (agentAccum chunks).2, pyStrip tc.name ≠ "" := by
  constructor
  · simp [call_agent_response, serialize_message, agentAccum_eq]
  · intro tc htc
    rw [agentAccum_eq] at htc
    have := List.of_mem_filter htc
    simpa using this

/-- C1 witness: a concrete two-chunk stream, instantiating the theorem and
discharging the membership hypothesis at the surviving call. -/
theorem c1_stream_completion_filters_empty_names_witness :
    pyStrip (ToolCall.mk "1" "t" []).name ≠ "" :=
  (c1_stream_completion_filters_empty_names
      [Chunk.mk "a" [ToolCall.mk "1" "t" [], ToolCall.mk "2" " " []]]).2
    (ToolCall.mk "1" "t" []) (by decide)

/-- C1 counterexample: the claim's de-duplication clause is false — a
stream whose two chunks carry the same (valid-named) tool-call fragment
yields a synthesized message whose tool-call list holds that request
twice. -/
theorem c1_no_deduplication_cex :
    call_agent_response
        [Chunk.mk "a" [ToolCall.mk "1" "t" []], Chunk.mk "b" [ToolCall.mk "1" "t" []]] =
      [Msg.mk "ai" "ab" [ToolCall.mk "1" "t" [], ToolCall.mk "1" "t" []] none none] ∧
    ¬ List.Nodup [ToolCall.mk "1" "t" [], ToolCall.mk "1" "t" []] ∧
    pyStrip (ToolCall.mk "1" "t" []).name ≠ "" := by
  refine ⟨rfl, by decide, by decide⟩

/-- C2 counterexample: with six tool calls inside the ten-message window
the routing function returns langgraph's END sentinel directly; the
workflow graph contains no "fallback" node that could emit an explanatory
ai-role message, and the only conditional targets out of the agent node
are authorization, tools and END. -/
theorem c2_no_fallback_node_cex :
    should_continue (some (fun _ => true)) 5
        [Msg.mk "human" "x" [] none none,
         Msg.mk "ai" ""
           [ToolCall.mk "1" "a" [], ToolCall.mk "2" "a" [], ToolCall.mk "3" "a" [],
            ToolCall.mk "4" "a" [], ToolCall.mk "5" "a" [], ToolCall.mk "6" "a" []]
           none none] =
      some Route.endTurn ∧
    "fallback" ∉ (buildWorkflowGraph true true).nodes ∧
    (buildWorkflowGraph true true).conditional = [("agent", ["authorization", "tools", ENDV])] := by
  refine ⟨rfl, by decide, rfl⟩

/-- C2 (amended): whenever the tool-call count over the last-ten-message
window exceeds the ceiling, the routing function returns the END sentinel
— so no further tool execution or authorization can happen this turn and
the turn terminates — but it does so without any fallback node: no graph
built by the workflow wiring contains a "fallback" node, and no
explanatory ai-role message is produced. -/
theorem c2_ceiling_forces_end (ms : List Msg) (ra : Option (String → Bool))
    (h1 : tcCount (lastWindow ms) > 5) (h2 : ms ≠ []) :
    should_continue ra 5 ms = some Route.endTurn ∧
    ∀ b1 b2 : Bool, "fallback" ∉ (buildWorkflowGraph b1 b2).nodes := by
  constructor
  · obtain ⟨m, hm⟩ : ∃ m, ms.getLast? = some m := by
      cases hms : ms.getLast? with
      | none => exact absurd (List.getLast?_eq_none_iff.mp hms) h2
      | some m => exact ⟨m, rfl⟩
    simp only [should_continue, hm]
    rw [if_pos h1]
  · intro b1 b2
    cases b1 <;> cases b2 <;> decide

/-- C2 witness: a concrete seven-call window routed to END. -/
theorem c2_ceiling_forces_end_witness :
    should_continue none 5
        [Msg.mk "ai" ""
           [ToolCall.mk "1" "b" [], ToolCall.mk "2" "b" [], ToolCall.mk "3" "b" [],
            ToolCall.mk "4" "b" [], ToolCall.mk "5" "b" [], ToolCall.mk "6" "b" [],
            ToolCall.mk "7" "b" []]
           none none] =
      some Route.endTurn :=
  (c2_ceiling_forces_end _ none (by decide) (by decide)).1

theorem pairsList_length (k : Nat) : (pairsList k).length = 2 * k := by
  induction k with
  | zero => rfl
  | succ n ih => simp [pairsList, ih]; omega

theorem tcCount_pairsList_drop_even (k d : Nat) :
    tcCount ((pairsList k).drop (2 * d)) = k - d := by
  induction k with
  | zero => simp [pairsList, tcCount]
  | succ n ih =>
    by_cases hd : d ≤ n
    · have hlen : 2 * d ≤ (pairsList n).length := by rw [pairsList_length]; omega
      rw [pairsList, List.drop_append_of_le_length hlen, tcCount_append, ih]
      simp [tcCount, aiTC, toolRes, noopCall]
      omega
    · have hlen : (pairsList (n + 1)).length ≤ 2 * d := by rw [pairsList_length]; omega
      rw [List.drop_eq_nil_of_le hlen]
      simp [tcCount]
      omega

theorem tcCount_pairsList_drop_odd (k d : Nat) :
    tcCount ((pairsList k).drop (2 * d + 1)) = k - (d + 1) := by
  induction k with
  | zero => simp [pairsList, tcCount]
  | succ n ih =>
    by_cases hd : d + 1 ≤ n
    · have hlen : 2 * d + 1 ≤ (pairsList n).length := by rw [pairsList_length]; omega
      rw [pairsList, List.drop_append_of_le_length hlen, tcCount_append, ih]
      simp [tcCount, aiTC, toolRes, noopCall]
      omega
    · by_cases hdn : d = n
      · subst hdn
        have h1 : 2 * d + 1 = (pairsList d).length + 1 := by rw [pairsList_length]
        rw [pairsList, h1]
        rw [List.drop_append]
        simp [tcCount, aiTC, toolRes, noopCall]
      · have hlen : (pairsList (n + 1)).length ≤ 2 * d + 1 := by rw [pairsList_length]; omega
        rw [List.drop_eq_nil_of_le hlen]
        simp [tcCount]
        omega

theorem histAfterAgent_window_le (k : Nat) :
    tcCount (lastWindow (histAfterAgent k)) ≤ 5 := by
  unfold lastWindow histAfterAgent
  have hlen : (Msg.mk "human" "go" [] none none :: (pairsList k ++ [aiTC k])).length = 2 * k + 2 := by
    simp [pairsList_length]
  rw [hlen]
  have hone : tcCount [aiTC k] = 1 := by simp [tcCount, aiTC]
  by_cases hk : k ≤ 4
  · have h0 : 2 * k + 2 - 10 = 0 := by omega
    rw [h0, List.drop_zero, tcCount_cons, tcCount_append]
    have hpk : tcCount (pairsList k) = k := by
      simpa using tcCount_pairsList_drop_even k 0
    have hhead : (Msg.mk "human" "go" [] none none : Msg).tool_calls.length = 0 := rfl
    omega
  · obtain ⟨j, rfl⟩ : ∃ j, k = j + 5 := ⟨k - 5, by omega⟩
    have h1 : 2 * (j + 5) + 2 - 10 = (2 * j + 1) + 1 := by omega
    rw [h1, List.drop_succ_cons]
    have hlen2 : 2 * j + 1 ≤ (pairsList (j + 5)).length := by rw [pairsList_length]; omega
    rw [List.drop_append_of_le_length hlen2, tcCount_append]
    rw [tcCount_pairsList_drop_odd (j + 5) j]
    omega

/-- C5 (code bug): against the synthetic model that on every invocation
returns exactly one non-empty tool call answered by one tool-result
message, the routing function returns "tools" after every agent
invocation — the windowed tool-call count saturates at exactly 5, which
never strictly exceeds the default ceiling of 5, so the fallback/END
outcome of the loop guard is never reached and the tools-to-agent cycle
of the graph recurs forever (only langgraph's external recursion limit
can stop it), contradicting the loop-safety property. -/
theorem c5_one_call_model_never_reaches_fallback (k : Nat) :
    should_continue (some (fun _ => false)) 5 (histAfterAgent k) = some Route.tools ∧
    tcCount (lastWindow (histAfterAgent k)) ≤ 5 ∧
    ("tools", "agent") ∈ (buildWorkflowGraph true true).edges := by
  refine ⟨?_, histAfterAgent_window_le k, by decide⟩
  have hlast : (histAfterAgent k).getLast? = some (aiTC k) := by
    unfold histAfterAgent
    have : Msg.mk "human" "go" [] none none :: (pairsList k ++ [aiTC k]) =
        (Msg.mk "human" "go" [] none none :: pairsList k) ++ [aiTC k] := by simp
    rw [this, List.getLast?_concat]
  have hc := histAfterAgent_window_le k
  simp only [should_continue, hlast]
  rw [if_neg (by omega)]
  simp [aiTC]

/-- C3: per-batch isolation of tool failures. If the `i`-th pending
request of the last message fails, the node's `i`-th output is a
tool-role message whose content states the error and whose tool_call_id
is exactly that request's id; every sibling's output is determined solely
by its own execution (so one failure never prevents the others from
executing), and outputs are in request order and bijective with the
batch. -/
theorem c3_tool_failure_isolated (execTool : ToolCall → Except String String)
    (ms : List Msg) (last : Msg) (i : Nat) (tc : ToolCall) (e : String)
    (hi : last.tool_calls[i]? = some tc)
    (he : execTool tc = Except.error e) :
    (wrapped_tool_node execTool (ms ++ [last])).length = last.tool_calls.length ∧
    (wrapped_tool_node execTool (ms ++ [last]))[i]? =
      some (Msg.mk "tool" ("Error: " ++ e ++ " Please fix your mistakes.") []
        (some tc.id) (some tc.name)) ∧
    (∀ (j : Nat) (tc2 : ToolCall), last.tool_calls[j]? = some tc2 →
      (wrapped_tool_node execTool (ms ++ [last]))[j]? =
        some (serialize_message (runOne execTool tc2))) := by
  have hnode : wrapped_tool_node execTool (ms ++ [last]) =
      last.tool_calls.map (fun tc0 => serialize_message (runOne execTool tc0)) := by
    unfold wrapped_tool_node
    rw [List.getLast?_concat]
    simp [toolNodeRun]
  refine ⟨by simp [hnode], ?_, ?_⟩
  · rw [hnode, List.getElem?_map, hi]
    simp [runOne, he, serialize_message]
  · intro j tc2 hj
    rw [hnode, List.getElem?_map, hj]
    rfl

/-- C3 witness: a two-call batch where the first call fails and the
second succeeds; the failure message carries the failing call's id and
the sibling still yields its own successful result. -/
theorem c3_tool_failure_isolated_witness :
    (wrapped_tool_node
        (fun tc0 => if tc0.id == "1" then Except.error "boom" else Except.ok "42")
        ([] ++ [Msg.mk "ai" "" [ToolCall.mk "1" "t1" [], ToolCall.mk "2" "t2" []] none none]))[0]? =
      some (Msg.mk "tool" ("Error: " ++ "boom" ++ " Please fix your mistakes.") []
        (some "1") (some "t1")) ∧
    (wrapped_tool_node
        (fun tc0 => if tc0.id == "1" then Except.error "boom" else Except.ok "42")
        ([] ++ [Msg.mk "ai" "" [ToolCall.mk "1" "t1" [], ToolCall.mk "2" "t2" []] none none]))[1]? =
      some (serialize_message (runOne
        (fun tc0 => if tc0.id == "1" then Except.error "boom" else Except.ok "42")
        (ToolCall.mk "2" "t2" []))) :=
  ⟨(c3_tool_failure_isolated
      (fun tc0 => if tc0.id == "1" then Except.error "boom" else Except.ok "42") []
      (Msg.mk "ai" "" [ToolCall.mk "1" "t1" [], ToolCall.mk "2" "t2" []] none none)
      0 (ToolCall.mk "1" "t1" []) "boom" rfl rfl).2.1,
   (c3_tool_failure_isolated
      (fun tc0 => if tc0.id == "1" then Except.error "boom" else Except.ok "42") []
      (Msg.mk "ai" "" [ToolCall.mk "1" "t1" [], ToolCall.mk "2" "t2" []] none none)
      0 (ToolCall.mk "1" "t1" []) "boom" rfl rfl).2.2
     1 (ToolCall.mk "2" "t2" []) rfl⟩

theorem authorizeOne_ok_iff (ext : AuthExt) (u : Option String) (tc : ToolCall) :
    authorizeOne ext u tc = Except.ok () ↔
      (ext.requires_auth tc.name = true → handshakeGrants ext u tc = true) := by
  unfold authorizeOne handshakeGrants
  cases hra : ext.requires_auth tc.name with
  | false => simp
  | true =>
    simp only [if_pos rfl, forall_const]
    cases hau : ext.authorize tc.name u with
    | error e => simp
    | ok r =>
      cases hst : r.status == "completed" with
      | true =>
        have : (r.status != "completed") = false := by simp [bne, hst]
        simp [this, hst]
      | false =>
        have : (r.status != "completed") = true := by simp [bne, hst]
        simp only [this, if_pos rfl, hst, Bool.false_or]
        cases hw : ext.wait_for_auth r.id with
        | error e => simp
        | ok _ =>
          cases hia : ext.is_authorized r.id with
          | true => simp [hia]
          | false => simp [hia]

theorem authLoop_ok_iff (ext : AuthExt) (u : Option String) (l : List ToolCall) :
    authLoop ext u l = Except.ok () ↔
      ∀ tc ∈ l, authorizeOne ext u tc = Except.ok () := by
  induction l with
  | nil => simp [authLoop]
  | cons tc rest ih =>
    simp only [authLoop, List.mem_cons]
    cases h1 : authorizeOne ext u tc with
    | error e =>
      constructor
      · intro h; cases h
      · intro h
        have := h tc (Or.inl rfl)
        rw [h1] at this
        cases this
    | ok u1 =>
      cases u1
      rw [ih]
      constructor
      · intro h tc2 h2
        cases h2 with
        | inl heq => rw [heq]; exact h1
        | inr hmem => exact h tc2 hmem
      · intro h tc2 h2
        exact h tc2 (Or.inr h2)

/-- C8: the authorization node errors out (aborting the whole turn, with
no retry path) exactly when some pending call requiring authorization
fails its handshake — i.e. it succeeds iff every flagged call's handshake
ends granted — any result is either that error or the empty message
delta, and on success control passes to tool execution along the
authorization-to-tools edge of the graph. -/
theorem c8_authorization_gate (ext : AuthExt) (u : Option String)
    (ms : List Msg) (last : Msg) :
    (authorize_node ext u (ms ++ [last]) = some (Except.ok ([] : List Msg)) ↔
      ∀ tc ∈ last.tool_calls,
        ext.requires_auth tc.name = true → handshakeGrants ext u tc = true) ∧
    (∀ r, authorize_node ext u (ms ++ [last]) = some r →
      r = Except.ok ([] : List Msg) ∨ ∃ e, r = Except.error e) ∧
    ("authorization", "tools") ∈ (buildWorkflowGraph true true).edges := by
  have hnode : authorize_node ext u (ms ++ [last]) =
      some (match authLoop ext u last.tool_calls with
            | Except.error e => Except.error e
            | Except.ok _ => Except.ok ([] : List Msg)) := by
    unfold authorize_node
    rw [List.getLast?_concat]
  refine ⟨?_, ?_, by decide⟩
  · rw [hnode]
    cases hl : authLoop ext u last.tool_calls with
    | error e =>
      constructor
      · intro h; simp at h
      · intro h
        have h2 := (authLoop_ok_iff ext u last.tool_calls).mpr
          (fun tc htc => (authorizeOne_ok_iff ext u tc).mpr (h tc htc))
        rw [hl] at h2
        cases h2
    | ok u1 =>
      cases u1
      constructor
      · intro _ tc htc
        exact (authorizeOne_ok_iff ext u tc).mp
          ((authLoop_ok_iff ext u last.tool_calls).mp hl tc htc)
      · intro _; rfl
  · intro r hr
    rw [hnode] at hr
    cases hl : authLoop ext u last.tool_calls with
    | error e =>
      rw [hl] at hr
      right
      exact ⟨e, by simpa using hr.symm⟩
    | ok u1 =>
      cases u1
      rw [hl] at hr
      left
      simpa using hr.symm

/-- C8 witness: with no call flagged as requiring authorization, the node
returns the empty message delta. -/
theorem c8_authorization_gate_witness :
    authorize_node
        ⟨fun _ => false, fun _ _ => Except.error "unused", fun _ => Except.ok (), fun _ => false⟩
        (some "user")
        ([] ++ [Msg.mk "ai" "" [ToolCall.mk "1" "t1" []] none none]) =
      some (Except.ok ([] : List Msg)) :=
  (c8_authorization_gate _ (some "user") [] _).1.mpr
    (fun _ _ h => Bool.noConfusion h)

/-- C4 counterexample: reconfiguring thread "t" from toolkit set
Calendar to toolkit set Calendar-and-Drive with the Arcade credential
present, successful tool initialization, but a failing `bind_tools`
step: the operation fails, yet the session's tool-capability binding has
already been replaced by the new tool manager — the failure is not
"before any mutation". The stored configuration still shows the old
toolkit set, so state is left partially mutated. -/
theorem c4_bind_failure_mutates_binding_cex :
    (chat_reconfigure (some "ARCADE") (ToolExt.mk (fun _ => true) (fun ks => ks) (fun _ => false))
        (WMState.mk [("t", buildWorkflowGraph true true)]
          [("t", ConfigDict.mk "ollama" "llama3.2" ["Calendar"] true)]
          [("t", ToolMgr.mk ["Calendar"])])
        "t" ["Calendar", "Drive"] none).2 = Except.error "bind_tools failed" ∧
    (chat_reconfigure (some "ARCADE") (ToolExt.mk (fun _ => true) (fun ks => ks) (fun _ => false))
        (WMState.mk [("t", buildWorkflowGraph true true)]
          [("t", ConfigDict.mk "ollama" "llama3.2" ["Calendar"] true)]
          [("t", ToolMgr.mk ["Calendar"])])
        "t" ["Calendar", "Drive"] none).1.tool_managers =
      [("t", ToolMgr.mk ["Calendar", "Drive"])] ∧
    [("t", ToolMgr.mk ["Calendar", "Drive"])] ≠ [("t", ToolMgr.mk ["Calendar"])] ∧
    (chat_reconfigure (some "ARCADE") (ToolExt.mk (fun _ => true) (fun ks => ks) (fun _ => false))
        (WMState.mk [("t", buildWorkflowGraph true true)]
          [("t", ConfigDict.mk "ollama" "llama3.2" ["Calendar"] true)]
          [("t", ToolMgr.mk ["Calendar"])])
        "t" ["Calendar", "Drive"] none).1.configurations =
      [("t", ConfigDict.mk "ollama" "llama3.2" ["Calendar"] true)] := by
  refine ⟨rfl, rfl, by decide, rfl⟩

/-- C4 (amended): reconfiguration is atomic for the stored configuration
and the compiled state machine — on every failure, including a missing
credential, these are left unchanged — and every failure on a path where
`bind_tools` would succeed leaves the whole session state (tool-capability
binding included) unchanged; only a `bind_tools` failure, which occurs
after the tool manager has been registered, can leave the binding
mutated. -/
theorem c4_reconfigure_partial_atomicity (ext : ToolExt) (s : WMState) (tid : String)
    (nk : List String) (ak arc : Option String) :
    exOk (chat_reconfigure arc ext s tid nk ak).2 = false →
      (chat_reconfigure arc ext s tid nk ak).1.workflows = s.workflows ∧
      (chat_reconfigure arc ext s tid nk ak).1.configurations = s.configurations ∧
      (ext.bind_tools_ok (ext.to_langchain nk) = true →
        (chat_reconfigure arc ext s tid nk ak).1 = s) := by
  simp only [chat_reconfigure, reconfigure_workflow_tools]
  split
  · intro _; exact ⟨rfl, rfl, fun _ => rfl⟩
  · split
    · intro _; exact ⟨rfl, rfl, fun _ => rfl⟩
    · split
      · intro _; exact ⟨rfl, rfl, fun _ => rfl⟩
      · split
        · intro _; exact ⟨rfl, rfl, fun _ => rfl⟩
        · split
          · intro hok; exact absurd hok (by simp [exOk])
          · split
            · split
              · intro hok; exact absurd hok (by simp [exOk])
              · rename_i hbt
                intro _
                refine ⟨rfl, rfl, fun hb => absurd hb hbt⟩
            · intro _; exact ⟨rfl, rfl, fun _ => rfl⟩

/-- C4 witness: a failure on a path where `bind_tools` would succeed (the
thread does not exist) leaves the whole manager state unchanged. -/
theorem c4_reconfigure_partial_atomicity_witness :
    (chat_reconfigure none (ToolExt.mk (fun _ => true) (fun ks => ks) (fun _ => true))
        (WMState.mk [] [] []) "t" [] none).1 = WMState.mk [] [] [] :=
  (c4_reconfigure_partial_atomicity (ToolExt.mk (fun _ => true) (fun ks => ks) (fun _ => true))
      (WMState.mk [] [] []) "t" [] none none rfl).2.2 rfl

end LocalAI
